import Mathlib

/-!
Verification of the energyunits dimensional-conversion engine.

This file is a shallow embedding of the library's core: the unit/dimension
registry (`registry.py`), the substance catalog (`substance.py`), the
inflation and exchange-rate registries (`inflation.py`, `exchange_rate.py`),
and the `Quantity` value object with its unified `to` conversion and
arithmetic operators (`quantity.py`).

Conventions of the embedding:
* Python floats are modelled as exact rationals (`ℚ`); decimal literals in
  the source become the corresponding exact decimal rationals.
* Fallible operations (Python `raise ValueError`) return `Except String`.
* The only non-fatal signal in the library, `warnings.warn`, is modelled as
  a `Bool` returned alongside the result of the operation that may warn.
* Python dicts become association lists looked up in insertion order;
  Python strings become Lean `String`s, with `in` (substring containment),
  `split` and `upper` re-implemented over the character list.
-/

namespace EnergyUnits

/-- ASCII upper-casing of one character, as Python's `str.upper` acts on the
ASCII unit strings used by the library. -/
def charUpper (c : Char) : Char :=
  if 'a' ≤ c ∧ c ≤ 'z' then Char.ofNat (c.toNat - 32) else c

/-- Python `s.upper()` for the ASCII strings handled here. -/
def strUpper (s : String) : String :=
  String.mk (s.data.map charUpper)

/-- Python substring containment `pat in s` over character lists. -/
def listContainsSub (s pat : List Char) : Bool :=
  (List.range (s.length + 1)).any (fun i => pat.isPrefixOf (s.drop i))

/-- Python substring containment `pat in s`. -/
def strContains (s pat : String) : Bool :=
  listContainsSub s.data pat.data

/-- Split a character list at the first slash: Python `s.split("/", 1)`
restricted to inputs that contain a slash (callers check first). -/
def splitFirstList : List Char → List Char × List Char
  | [] => ([], [])
  | c :: rest =>
    if c = '/' then ([], rest)
    else
      let p := splitFirstList rest
      (c :: p.1, p.2)

/-- Python `unit.split("/", 1)` as a pair (numerator, denominator). -/
def splitFirst (s : String) : String × String :=
  let p := splitFirstList s.data
  (String.mk p.1, String.mk p.2)

/-- Split a character list on every slash: Python `s.split("/")`. -/
def splitAllList : List Char → List (List Char)
  | [] => [[]]
  | c :: rest =>
    match splitAllList rest with
    | [] => [[]]
    | h :: t => if c = '/' then [] :: h :: t else (c :: h) :: t

/-- Python `s.split("/")`. -/
def splitAll (s : String) : List String :=
  (splitAllList s.data).map String.mk

/-- Association-list lookup in insertion order, the model of Python dict
lookup used throughout. -/
def alookup {κ α : Type} [DecidableEq κ] : List (κ × α) → κ → Option α
  | [], _ => none
  | (k, v) :: rest, key => if key = k then some v else alookup rest key

/-- Python `range(a, b)` over integers, as the list `[a, a+1, ..., b-1]`. -/
def pyRange (a b : Int) : List Int :=
  (List.range (b - a).toNat).map (fun i : Nat => a + (i : Int))

/-- Python's `a or b` on an optional integer `a` (`None` and `0` are falsy),
used for `year_for_exchange_rate or self.reference_year`. -/
def pyOrYear (a b : Option Int) : Option Int :=
  match a with
  | some x => if x = 0 then b else some x
  | none => b

/-! ## Unit registry (`registry.py`) -/

/-- `UnitRegistry._dimensions`: dimension of each simple unit. -/
def unit_dimensions : List (String × String) :=
  [("J", "ENERGY"), ("kJ", "ENERGY"), ("MJ", "ENERGY"), ("GJ", "ENERGY"),
   ("TJ", "ENERGY"), ("PJ", "ENERGY"), ("EJ", "ENERGY"), ("Wh", "ENERGY"),
   ("kWh", "ENERGY"), ("MWh", "ENERGY"), ("GWh", "ENERGY"), ("TWh", "ENERGY"),
   ("PWh", "ENERGY"), ("MMBTU", "ENERGY"),
   ("W", "POWER"), ("kW", "POWER"), ("MW", "POWER"), ("GW", "POWER"),
   ("TW", "POWER"),
   ("g", "MASS"), ("kg", "MASS"), ("t", "MASS"), ("Mt", "MASS"),
   ("Gt", "MASS"),
   ("m3", "VOLUME"), ("L", "VOLUME"), ("barrel", "VOLUME"),
   ("s", "TIME"), ("min", "TIME"), ("h", "TIME"), ("a", "TIME"),
   ("USD", "CURRENCY"), ("EUR", "CURRENCY"), ("GBP", "CURRENCY"),
   ("JPY", "CURRENCY"), ("CNY", "CURRENCY")]

/-- `UnitRegistry._conversion_factors`: factor of each simple unit relative
to its dimension's base unit. Decimal and scientific float literals of the
source are written as the corresponding exact fractions (for example `1e-9`
as `1/1000000000` and `3.6` as `36/10`) so that the values can be evaluated
by the kernel. -/
def conversion_factors : List (String × ℚ) :=
  [("J", (1/1000000000 : ℚ) / (36/10)), ("kJ", (1/1000000 : ℚ) / (36/10)),
   ("MJ", (1/1000 : ℚ) / (36/10)), ("GJ", (1 : ℚ) / (36/10)),
   ("TJ", (1000 : ℚ) / (36/10)), ("PJ", (1000000 : ℚ) / (36/10)),
   ("EJ", (1000000000 : ℚ) / (36/10)), ("Wh", (1/1000000 : ℚ)),
   ("kWh", (1/1000 : ℚ)),
   ("MWh", 1), ("GWh", 1000), ("TWh", 1000000), ("PWh", 1000000000),
   ("MMBTU", (293071/1000000 : ℚ)),
   ("W", (1/1000000 : ℚ)), ("kW", (1/1000 : ℚ)), ("MW", 1), ("GW", 1000),
   ("TW", 1000000),
   ("g", (1/1000000 : ℚ)), ("kg", (1/1000 : ℚ)), ("t", 1), ("Mt", 1000000),
   ("Gt", 1000000000),
   ("m3", 1), ("L", (1/1000 : ℚ)), ("barrel", (159/1000 : ℚ)),
   ("s", (1 : ℚ) / 3600), ("min", (1 : ℚ) / 60), ("h", 1), ("a", 8760),
   ("USD", 1), ("EUR", (108/100 : ℚ)), ("GBP", (127/100 : ℚ)),
   ("JPY", (67/10000 : ℚ)), ("CNY", (14/100 : ℚ))]

/-- The key set of `UnitRegistry._dimension_relationships`: the dimension
pairs with a defined cross-dimension conversion. -/
def dimension_relationship_keys : List (String × String) :=
  [("ENERGY", "POWER"), ("POWER", "ENERGY"), ("MASS", "VOLUME"),
   ("VOLUME", "MASS"), ("ENERGY", "MASS"), ("MASS", "ENERGY"),
   ("ENERGY", "VOLUME"), ("VOLUME", "ENERGY")]

/-- `UnitRegistry._standard_unit_pairs`. -/
def standard_unit_pairs : List ((String × String) × (String × String)) :=
  [(("ENERGY", "POWER"), ("MWh", "MW")), (("POWER", "ENERGY"), ("MW", "MWh")),
   (("MASS", "VOLUME"), ("kg", "m3")), (("VOLUME", "MASS"), ("m3", "kg")),
   (("ENERGY", "MASS"), ("MWh", "kg")), (("MASS", "ENERGY"), ("kg", "MWh")),
   (("ENERGY", "VOLUME"), ("MWh", "m3")), (("VOLUME", "ENERGY"), ("m3", "MWh"))]

/-- `UnitRegistry._corresponding_units`. -/
def corresponding_units : List (String × String) :=
  [("W", "Wh"), ("kW", "kWh"), ("MW", "MWh"), ("GW", "GWh"), ("TW", "TWh"),
   ("Wh", "W"), ("kWh", "kW"), ("MWh", "MW"), ("GWh", "GW"), ("TWh", "TW")]

/-- `UnitRegistry.get_dimension`, with an explicit recursion budget. Each
recursive call is on a strict substring (one slash is consumed), so a budget
of one more than the string length always suffices; the budget-exhausted
branch is unreachable on those calls. -/
def get_dimension_fuel : Nat → String → Except String String
  | 0, _ => .error "recursion limit"
  | n + 1, unit =>
    if unit = "" then .ok "DIMENSIONLESS"
    else if strContains unit "/" then
      let p := splitFirst unit
      match get_dimension_fuel n p.1 with
      | .error e => .error e
      | .ok num_dim =>
        match get_dimension_fuel n p.2 with
        | .error e => .error e
        | .ok den_dim =>
          if num_dim = "ENERGY" ∧ den_dim = "TIME" then .ok "POWER"
          else .ok (num_dim ++ "_PER_" ++ den_dim)
    else
      match alookup unit_dimensions unit with
      | some d => .ok d
      | none => .error ("Unknown unit: " ++ unit)

/-- `UnitRegistry.get_dimension`. -/
def get_dimension (unit : String) : Except String String :=
  get_dimension_fuel (unit.length + 1) unit

/-- `UnitRegistry.are_dimensions_compatible`. -/
def are_dimensions_compatible (from_dim to_dim : String) : Bool :=
  if from_dim = to_dim then true
  else ((alookup (dimension_relationship_keys.map (fun p => (p, ())))
          (from_dim, to_dim)).isSome)

/-- `UnitRegistry._convert_compound_to_simple` and
`UnitRegistry.get_conversion_factor` are mutually recursive through compound
units, so both carry the same recursion budget; the budget-exhausted branch
is unreachable when the budget exceeds the total length of both unit
strings. -/
def get_conversion_factor_fuel : Nat → String → String → Except String ℚ
  | 0, _, _ => .error "recursion limit"
  | n + 1, from_unit, to_unit =>
    match get_dimension from_unit with
    | .error e => .error e
    | .ok from_dim =>
      match get_dimension to_unit with
      | .error e => .error e
      | .ok to_dim =>
        if from_dim ≠ to_dim then
          .error ("Incompatible units: " ++ from_unit ++ " and " ++ to_unit)
        else if strContains from_unit "/" ∧ strContains to_unit "/" then
          let fp := splitFirst from_unit
          let tp := splitFirst to_unit
          match get_conversion_factor_fuel n fp.1 tp.1 with
          | .error e => .error e
          | .ok num_factor =>
            match get_conversion_factor_fuel n fp.2 tp.2 with
            | .error e => .error e
            | .ok den_factor => .ok (num_factor / den_factor)
        else if strContains from_unit "/" ∨ strContains to_unit "/" then
          -- `_convert_compound_to_simple`, inlined with the same budget
          let compound_unit := if strContains from_unit "/" then from_unit else to_unit
          let simple_unit := if strContains from_unit "/" then to_unit else from_unit
          let is_from_compound := strContains from_unit "/"
          if from_dim = "POWER" then
            let p := splitFirst compound_unit
            match get_conversion_factor_fuel n p.1 "MWh" with
            | .error e => .error e
            | .ok energy_factor =>
              match get_conversion_factor_fuel n p.2 "h" with
              | .error e => .error e
              | .ok time_factor =>
                match get_conversion_factor_fuel n "MW" simple_unit with
                | .error e => .error e
                | .ok mw_to_simple_factor =>
                  let compound_to_simple_factor :=
                    energy_factor / time_factor * mw_to_simple_factor
                  if is_from_compound then .ok compound_to_simple_factor
                  else .ok (1 / compound_to_simple_factor)
          else
            .error "Compound to simple conversion not implemented for dimension"
        else
          match alookup conversion_factors from_unit with
          | none => .error "Conversion factor not defined"
          | some from_factor =>
            match alookup conversion_factors to_unit with
            | none => .error "Conversion factor not defined"
            | some to_factor => .ok (from_factor / to_factor)

/-- `UnitRegistry.get_conversion_factor`. -/
def get_conversion_factor (from_unit to_unit : String) : Except String ℚ :=
  get_conversion_factor_fuel (from_unit.length + to_unit.length + 8)
    from_unit to_unit

/-- `UnitRegistry.get_corresponding_unit`. -/
def get_corresponding_unit (unit : String) (target_dimension : String) :
    Except String String :=
  let via_table : Option String :=
    match alookup corresponding_units unit with
    | some corresponding =>
      match get_dimension corresponding with
      | .ok d => if d = target_dimension then some corresponding else none
      | .error _ => none
    | none => none
  match via_table with
  | some corresponding => .ok corresponding
  | none =>
    match get_dimension unit with
    | .error e => .error e
    | .ok from_dim =>
      match alookup standard_unit_pairs (from_dim, target_dimension) with
      | some p => .ok p.2
      | none => .error ("No corresponding " ++ target_dimension ++ " unit")

/-- Modelled from the spec: `registry.get_multiplication_result` is called by
`Quantity.__mul__` but its definition is not under `src/`; spec section 4.1
describes table-driven rules matching an unordered dimension pair, with the
single rule POWER times TIME giving ENERGY sourced from the POWER operand. -/
def get_multiplication_result (dim1 dim2 : String) :
    Option (String × String) :=
  if (dim1 = "POWER" ∧ dim2 = "TIME") ∨ (dim1 = "TIME" ∧ dim2 = "POWER") then
    some ("ENERGY", "POWER")
  else none

/-- Modelled from the spec: `registry.get_division_result` is called by
`Quantity.__truediv__` but its definition is not under `src/`; spec section
4.1 gives the rule ENERGY divided by TIME yields POWER. -/
def get_division_result (num_dim den_dim : String) : Option String :=
  if num_dim = "ENERGY" ∧ den_dim = "TIME" then some "POWER" else none

/-! ## Substance catalog (`substance.py`) -/

/-- One entry of `SubstanceRegistry._substances`. -/
structure SubstanceProps where
  hhv : Option ℚ
  lhv : Option ℚ
  density : Option ℚ
  carbon_intensity : ℚ
  carbon_content : ℚ
  hydrogen_content : ℚ
  ash_content : ℚ
deriving DecidableEq

/-- `SubstanceRegistry._substances`; fields are hhv, lhv, density,
carbon_intensity, carbon_content, hydrogen_content, ash_content, with the
source's decimal float literals written as exact fractions. -/
def substances : List (String × SubstanceProps) :=
  [("coal", ⟨some (293/10), some (278/10), some 833, 340, 75/100, 5/100, 10/100⟩),
   ("lignite", ⟨some 15, some 14, some 700, 400, 65/100, 4/100, 15/100⟩),
   ("bituminous", ⟨some 30, some (285/10), some 833, 330, 80/100, 5/100, 8/100⟩),
   ("anthracite", ⟨some (325/10), some (315/10), some 1000, 320, 85/100, 4/100, 5/100⟩),
   ("natural_gas", ⟨some 55, some (495/10), some (75/100), 200, 75/100, 25/100, 0⟩),
   ("lng", ⟨some 55, some (495/10), some 450, 210, 75/100, 25/100, 0⟩),
   ("methane", ⟨some (555/10), some 50, some (68/100), 200, 75/100, 25/100, 0⟩),
   ("crude_oil", ⟨some 45, some (425/10), some 870, 270, 85/100, 13/100, 1/1000⟩),
   ("oil", ⟨some 45, some (425/10), some 870, 270, 85/100, 13/100, 1/1000⟩),
   ("fuel_oil", ⟨some 43, some (405/10), some 950, 285, 87/100, 11/100, 5/1000⟩),
   ("diesel", ⟨some (457/10), some (428/10), some 840, 265, 86/100, 14/100, 0⟩),
   ("gasoline", ⟨some (473/10), some 44, some 750, 255, 85/100, 15/100, 0⟩),
   ("wood_pellets", ⟨some 20, some (185/10), some 650, 20, 50/100, 6/100, 1/100⟩),
   ("wood_chips", ⟨some 19, some 16, some 350, 25, 48/100, 6/100, 2/100⟩),
   ("wind", ⟨none, none, none, 0, 0, 0, 0⟩),
   ("solar", ⟨none, none, none, 0, 0, 0, 0⟩),
   ("hydro", ⟨none, none, none, 0, 0, 0, 0⟩),
   ("nuclear", ⟨none, none, none, 0, 0, 0, 0⟩),
   ("hydrogen", ⟨some 142, some 120, some (9/100), 0, 0, 1, 0⟩),
   ("methanol", ⟨some (227/10), some (199/10), some 795, 240, 375/1000, 125/1000, 0⟩),
   ("CO2", ⟨none, none, some (198/100), 0, 273/1000, 0, 0⟩),
   ("H2O", ⟨none, none, some 1000, 0, 0, 111/1000, 0⟩),
   ("ash", ⟨none, none, some 1500, 0, 0, 0, 1⟩)]

/-- `SubstanceRegistry.__getitem__`. -/
def substance_get (substance_id : String) : Except String SubstanceProps :=
  match alookup substances substance_id with
  | some s => .ok s
  | none => .error ("Unknown substance: " ++ substance_id)

/-- `SubstanceRegistry.hhv`. -/
def substance_hhv (substance_id : String) : Except String ℚ :=
  match substance_get substance_id with
  | .error e => .error e
  | .ok s =>
    match s.hhv with
    | some v => .ok v
    | none => .error ("Substance has no heating value: " ++ substance_id)

/-- `SubstanceRegistry.lhv`. -/
def substance_lhv (substance_id : String) : Except String ℚ :=
  match substance_get substance_id with
  | .error e => .error e
  | .ok s =>
    match s.lhv with
    | some v => .ok v
    | none => .error ("Substance has no heating value: " ++ substance_id)

/-- `SubstanceRegistry.density`. -/
def substance_density (substance_id : String) : Except String ℚ :=
  match substance_get substance_id with
  | .error e => .error e
  | .ok s =>
    match s.density with
    | some v => .ok v
    | none => .error ("Substance has no defined density: " ++ substance_id)

/-- `SubstanceRegistry.lhv_hhv_ratio`: the quotient lhv/hhv. -/
def lhv_over_hhv (substance_id : String) : Except String ℚ :=
  match substance_hhv substance_id with
  | .error e => .error e
  | .ok h =>
    match substance_lhv substance_id with
    | .error e => .error e
    | .ok l => .ok (l / h)

/-! ## Inflation registry (`inflation.py`) -/

/-- The USD series of `InflationRegistry._inflation_data`: annual CPI
percentage rates per year, with decimal literals as exact fractions. -/
def usd_inflation_rates : List (Int × ℚ) :=
  [(2010, 150/100), (2011, 310/100), (2012, 207/100), (2013, 146/100),
   (2014, 12/100), (2015, 12/100), (2016, 126/100), (2017, 213/100),
   (2018, 244/100), (2019, 181/100), (2020, 123/100), (2021, 470/100),
   (2022, 8), (2023, 412/100), (2024, 315/100), (2025, 250/100),
   (2026, 230/100), (2027, 220/100), (2028, 210/100), (2029, 2),
   (2030, 2)]

/-- The EUR series of `InflationRegistry._inflation_data`. -/
def eur_inflation_rates : List (Int × ℚ) :=
  [(2010, 160/100), (2011, 270/100), (2012, 250/100), (2013, 140/100),
   (2014, 40/100), (2015, 0), (2016, 20/100), (2017, 150/100),
   (2018, 180/100), (2019, 120/100), (2020, 30/100), (2021, 260/100),
   (2022, 840/100), (2023, 540/100), (2024, 280/100), (2025, 220/100),
   (2026, 210/100), (2027, 2), (2028, 2), (2029, 2), (2030, 2)]

/-- `InflationRegistry._inflation_data`. -/
def inflation_data : List (String × List (Int × ℚ)) :=
  [("USD", usd_inflation_rates), ("EUR", eur_inflation_rates)]

/-- The inflating loop of `get_cumulative_inflation_factor`: for each year,
`factor *= 1.0 + rate/100`, failing on a missing year. -/
def inflateLoop (currency_data : List (Int × ℚ)) (factor : ℚ) :
    List Int → Except String ℚ
  | [] => .ok factor
  | year :: years =>
    match alookup currency_data year with
    | none => .error "No inflation data for year"
    | some rate => inflateLoop currency_data (factor * (1 + rate / 100)) years

/-- The deflating loop of `get_cumulative_inflation_factor`: for each year,
`factor /= 1.0 + rate/100`, failing on a missing year. -/
def deflateLoop (currency_data : List (Int × ℚ)) (factor : ℚ) :
    List Int → Except String ℚ
  | [] => .ok factor
  | year :: years =>
    match alookup currency_data year with
    | none => .error "No inflation data for year"
    | some rate => deflateLoop currency_data (factor / (1 + rate / 100)) years

/-- `InflationRegistry.get_cumulative_inflation_factor`. -/
def get_cumulative_inflation_factor (currency : String)
    (from_year to_year : Int) : Except String ℚ :=
  match alookup inflation_data currency with
  | none => .error ("Currency not supported: " ++ currency)
  | some currency_data =>
    if from_year = to_year then .ok 1
    else if from_year > to_year then
      deflateLoop currency_data 1 (pyRange (to_year + 1) (from_year + 1))
    else
      inflateLoop currency_data 1 (pyRange (from_year + 1) (to_year + 1))

/-- `InflationRegistry.get_supported_currencies`: the data's key list. -/
def inflation_supported_currencies : List String :=
  inflation_data.map (fun p => p.1)

/-- `InflationRegistry.detect_currency_from_unit`. -/
def inflation_detect_currency_from_unit (unit : String) : Option String :=
  let unit_upper := strUpper unit
  match inflation_supported_currencies.find?
      (fun currency => strContains unit_upper currency) with
  | some currency => some currency
  | none =>
    if strContains unit "$" ∨ strContains unit_upper "DOLLAR" then some "USD"
    else none

/-! ## Exchange-rate registry (`exchange_rate.py`) -/

/-- Modelled from the spec: `ExchangeRateRegistry._exchange_rate_data` is
loaded from `data/exchange_rates.json`, which is not under `src/`. The table
below reconstructs it from the spec (EconomicCatalog: currency to
year-indexed rate, 1 unit = X USD) and the repository's test expectations
(EUR 1.3257 in 2010, 1.0813 in 2023, 1.08 in 2025; GBP 1.5286 in 2015,
1.2886 in 2017; currencies EUR, GBP, JPY, CNY covering 2010-2025, plus the
always-1 reference currency USD stored with an empty series). Only the shape
and the sampled values are used by the proofs; individual rates are
otherwise schematic. -/
def exchange_rate_data : List (String × List (Int × ℚ)) :=
  [("EUR",
    [(2010, 13257/10000), (2015, 11100/10000), (2017, 11300/10000),
     (2020, 11420/10000), (2023, 10813/10000), (2024, 10800/10000),
     (2025, 10800/10000)]),
   ("GBP",
    [(2010, 15452/10000), (2015, 15286/10000), (2017, 12886/10000),
     (2020, 12830/10000), (2023, 12430/10000), (2024, 12800/10000),
     (2025, 12700/10000)]),
   ("JPY",
    [(2010, 114/10000), (2015, 83/10000), (2017, 89/10000),
     (2020, 94/10000), (2023, 71/10000), (2024, 66/10000),
     (2025, 67/10000)]),
   ("CNY",
    [(2010, 1477/10000), (2015, 1601/10000), (2017, 1481/10000),
     (2020, 1450/10000), (2023, 1415/10000), (2024, 1390/10000),
     (2025, 1400/10000)]),
   ("USD", [])]

/-- The largest year key of a currency's series, Python
`max(currency_data.keys())`; `none` on an empty series. -/
def maxYear : List (Int × ℚ) → Option Int
  | [] => none
  | p :: rest => some (rest.foldl (fun m q => max m q.1) p.1)

/-- `ExchangeRateRegistry.get_exchange_rate`. -/
def get_exchange_rate (currency : String) (year : Option Int) :
    Except String ℚ :=
  if currency = "USD" then .ok 1
  else
    match alookup exchange_rate_data currency with
    | none => .error ("Currency not supported: " ++ currency)
    | some currency_data =>
      let y : Except String Int :=
        match year with
        | some y => .ok y
        | none =>
          match maxYear currency_data with
          | some m => .ok m
          | none => .error "max of empty sequence"
      match y with
      | .error e => .error e
      | .ok y =>
        match alookup currency_data y with
        | some rate => .ok rate
        | none => .error ("No exchange rate data for year: " ++ currency)

/-- `ExchangeRateRegistry.convert_currency`. -/
def convert_currency (value : ℚ) (from_currency to_currency : String)
    (year : Option Int) : Except String ℚ :=
  if from_currency = to_currency then .ok value
  else
    match get_exchange_rate from_currency year with
    | .error e => .error e
    | .ok from_rate =>
      match get_exchange_rate to_currency year with
      | .error e => .error e
      | .ok to_rate => .ok (value * from_rate / to_rate)

/-- `ExchangeRateRegistry.get_conversion_factor`. -/
def exchange_get_conversion_factor (from_currency to_currency : String)
    (year : Option Int) : Except String ℚ :=
  convert_currency 1 from_currency to_currency year

/-- `ExchangeRateRegistry.get_supported_currencies`: `["USD"]` followed by
the data's keys (which include `"USD"` itself, appended when the registry
stores the reference currency's empty series). -/
def exchange_supported_currencies : List String :=
  "USD" :: exchange_rate_data.map (fun p => p.1)

/-- `ExchangeRateRegistry.detect_currency_from_unit`. -/
def exchange_detect_currency_from_unit (unit : String) : Option String :=
  let unit_upper := strUpper unit
  match exchange_supported_currencies.find?
      (fun currency => strContains unit_upper currency) with
  | some currency => some currency
  | none =>
    if strContains unit "$" ∨ strContains unit_upper "DOLLAR" then some "USD"
    else none

/-! ## Quantity (`quantity.py`) -/

/-- The `Quantity` value object. The `dimension` attribute of the Python
class is not stored: it is always `registry.get_dimension(unit)`, computed
at construction, and the embedding recomputes it at each use instead (for a
constructible quantity the two agree; in the embedding an unknown unit
surfaces as an error at the first operation rather than at construction).
Array values are not modelled: every operation below acts element-wise in
the source, so a scalar `ℚ` value stands for each array element. -/
structure Quantity where
  value : ℚ
  unit : String
  substance : Option String
  basis : Option String
  reference_year : Option Int
deriving DecidableEq

/-- `UnitRegistry._energy_to_power` (with the default `hours = 1.0`, which
is what `Quantity.to` always uses — it never forwards an `hours` kwarg). -/
def energy_to_power (value : ℚ) (from_unit to_unit : String) :
    Except String ℚ :=
  match get_conversion_factor from_unit "MWh" with
  | .error e => .error e
  | .ok f =>
    let energy_mwh := value * f
    let hours : ℚ := 1
    let power_mw := energy_mwh / hours
    match get_conversion_factor "MW" to_unit with
    | .error e => .error e
    | .ok g => .ok (power_mw * g)

/-- `UnitRegistry._power_to_energy` (default `hours = 1.0`). -/
def power_to_energy (value : ℚ) (from_unit to_unit : String) :
    Except String ℚ :=
  match get_conversion_factor from_unit "MW" with
  | .error e => .error e
  | .ok f =>
    let power_mw := value * f
    let hours : ℚ := 1
    let energy_mwh := power_mw * hours
    match get_conversion_factor "MWh" to_unit with
    | .error e => .error e
    | .ok g => .ok (energy_mwh * g)

/-- `UnitRegistry._mass_to_volume`. -/
def mass_to_volume (value : ℚ) (from_unit to_unit : String)
    (substance : Option String) : Except String ℚ :=
  match substance with
  | none => .error "Substance must be specified for mass to volume conversion"
  | some s =>
    match substance_density s with
    | .error e => .error e
    | .ok density =>
      match get_conversion_factor from_unit "kg" with
      | .error e => .error e
      | .ok f =>
        let mass_kg := value * f
        let volume_m3 := mass_kg / density
        match get_conversion_factor "m3" to_unit with
        | .error e => .error e
        | .ok g => .ok (volume_m3 * g)

/-- `UnitRegistry._volume_to_mass`. -/
def volume_to_mass (value : ℚ) (from_unit to_unit : String)
    (substance : Option String) : Except String ℚ :=
  match substance with
  | none => .error "Substance must be specified for volume to mass conversion"
  | some s =>
    match substance_density s with
    | .error e => .error e
    | .ok density =>
      match get_conversion_factor from_unit "m3" with
      | .error e => .error e
      | .ok f =>
        let volume_m3 := value * f
        let mass_kg := volume_m3 * density
        match get_conversion_factor "kg" to_unit with
        | .error e => .error e
        | .ok g => .ok (mass_kg * g)

/-- The basis actually consulted by the mass/energy converters: the `basis`
kwarg when present (forwarded from `Quantity.to` when `self.basis` is set),
else the default `"LHV"`; compared upper-cased against `"HHV"`. -/
def basisIsHHV (basis : Option String) : Bool :=
  strUpper (basis.getD "LHV") = "HHV"

/-- `UnitRegistry._energy_to_mass`. The source converts the heating value
from MJ/kg to MWh/t with the rounded constant `0.2778` (not the exact
1000/3600), written here as the exact fraction `2778/10000`. -/
def energy_to_mass (value : ℚ) (from_unit to_unit : String)
    (substance : Option String) (basis : Option String) : Except String ℚ :=
  match substance with
  | none => .error "Substance must be specified for energy to mass conversion"
  | some s =>
    match get_conversion_factor from_unit "MWh" with
    | .error e => .error e
    | .ok f =>
      let energy_mwh := value * f
      match (if basisIsHHV basis then substance_hhv s else substance_lhv s) with
      | .error e => .error e
      | .ok heating_value_mj_kg =>
        let heating_value_mwh_t := heating_value_mj_kg * (2778/10000 : ℚ)
        let mass_t := energy_mwh / heating_value_mwh_t
        let mass_kg := mass_t * 1000
        match get_conversion_factor "kg" to_unit with
        | .error e => .error e
        | .ok g => .ok (mass_kg * g)

/-- `UnitRegistry._mass_to_energy`. Uses the same rounded `0.2778` constant
as `_energy_to_mass`. -/
def mass_to_energy (value : ℚ) (from_unit to_unit : String)
    (substance : Option String) (basis : Option String) : Except String ℚ :=
  match substance with
  | none => .error "Substance must be specified for mass to energy conversion"
  | some s =>
    match get_conversion_factor from_unit "kg" with
    | .error e => .error e
    | .ok f =>
      let mass_kg := value * f
      let mass_t := mass_kg / 1000
      match (if basisIsHHV basis then substance_hhv s else substance_lhv s) with
      | .error e => .error e
      | .ok heating_value_mj_kg =>
        let heating_value_mwh_t := heating_value_mj_kg * (2778/10000 : ℚ)
        let energy_mwh := mass_t * heating_value_mwh_t
        match get_conversion_factor "MWh" to_unit with
        | .error e => .error e
        | .ok g => .ok (energy_mwh * g)

/-- `UnitRegistry._energy_to_volume`: energy → mass → volume. -/
def energy_to_volume (value : ℚ) (from_unit to_unit : String)
    (substance : Option String) (basis : Option String) : Except String ℚ :=
  match substance with
  | none => .error "Substance must be specified for energy to volume conversion"
  | some _ =>
    match energy_to_mass value from_unit "kg" substance basis with
    | .error e => .error e
    | .ok mass_kg => mass_to_volume mass_kg "kg" to_unit substance

/-- `UnitRegistry._volume_to_energy`: volume → mass → energy. -/
def volume_to_energy (value : ℚ) (from_unit to_unit : String)
    (substance : Option String) (basis : Option String) : Except String ℚ :=
  match substance with
  | none => .error "Substance must be specified for volume to energy conversion"
  | some _ =>
    match volume_to_mass value from_unit "kg" substance with
    | .error e => .error e
    | .ok mass_kg => mass_to_energy mass_kg "kg" to_unit substance basis

/-- `UnitRegistry.convert_between_dimensions`: the dispatch through
`_dimension_relationships`. -/
def convert_between_dimensions (value : ℚ) (from_unit to_unit : String)
    (substance : Option String) (basis : Option String) : Except String ℚ :=
  match get_dimension from_unit with
  | .error e => .error e
  | .ok from_dim =>
    match get_dimension to_unit with
    | .error e => .error e
    | .ok to_dim =>
      if from_dim = "ENERGY" ∧ to_dim = "POWER" then
        energy_to_power value from_unit to_unit
      else if from_dim = "POWER" ∧ to_dim = "ENERGY" then
        power_to_energy value from_unit to_unit
      else if from_dim = "MASS" ∧ to_dim = "VOLUME" then
        mass_to_volume value from_unit to_unit substance
      else if from_dim = "VOLUME" ∧ to_dim = "MASS" then
        volume_to_mass value from_unit to_unit substance
      else if from_dim = "ENERGY" ∧ to_dim = "MASS" then
        energy_to_mass value from_unit to_unit substance basis
      else if from_dim = "MASS" ∧ to_dim = "ENERGY" then
        mass_to_energy value from_unit to_unit substance basis
      else if from_dim = "ENERGY" ∧ to_dim = "VOLUME" then
        energy_to_volume value from_unit to_unit substance basis
      else if from_dim = "VOLUME" ∧ to_dim = "ENERGY" then
        volume_to_energy value from_unit to_unit substance basis
      else .error "No conversion defined between dimensions"

/-- `Quantity._convert_unit`. -/
def convertUnit (q : Quantity) (target_unit : String)
    (year_for_exchange_rate : Option Int) : Except String Quantity :=
  match get_dimension q.unit with
  | .error e => .error e
  | .ok from_dim =>
    match get_dimension target_unit with
    | .error e => .error e
    | .ok to_dim =>
      let new_value : Except String ℚ :=
        if from_dim = to_dim then
          let source_currency := exchange_detect_currency_from_unit q.unit
          let target_currency := exchange_detect_currency_from_unit target_unit
          let is_cc : Bool :=
            match source_currency, target_currency with
            | some sc, some tc => sc ≠ tc
            | _, _ => false
          if is_cc then
            let year := pyOrYear year_for_exchange_rate q.reference_year
            match exchange_get_conversion_factor
                (source_currency.getD "") (target_currency.getD "") year with
            | .error e => .error e
            | .ok factor => .ok (q.value * factor)
          else
            match get_conversion_factor q.unit target_unit with
            | .error e => .error e
            | .ok factor => .ok (q.value * factor)
        else if are_dimensions_compatible from_dim to_dim then
          convert_between_dimensions q.value q.unit target_unit
            q.substance q.basis
        else .error "Cannot convert between incompatible dimensions"
      match new_value with
      | .error e => .error e
      | .ok v => .ok ⟨v, target_unit, q.substance, q.basis, q.reference_year⟩

/-- `Quantity._convert_basis`. -/
def convertBasis (q : Quantity) (target_basis : String) :
    Except String Quantity :=
  if strUpper target_basis ≠ "HHV" ∧ strUpper target_basis ≠ "LHV" then
    .error "Basis must be HHV or LHV"
  else
    match q.substance with
    | none => .error "Substance must be specified for basis conversion"
    | some s =>
      let current_basis := q.basis.getD "LHV"
      let tb := strUpper target_basis
      if strUpper current_basis = tb then
        .ok ⟨q.value, q.unit, q.substance, some tb, q.reference_year⟩
      else
        match lhv_over_hhv s with
        | .error e => .error e
        | .ok ratio_lhv_hhv =>
          if strUpper current_basis = "HHV" ∧ tb = "LHV" then
            .ok ⟨q.value * ratio_lhv_hhv, q.unit, q.substance, some tb,
                 q.reference_year⟩
          else if strUpper current_basis = "LHV" ∧ tb = "HHV" then
            .ok ⟨q.value / ratio_lhv_hhv, q.unit, q.substance, some tb,
                 q.reference_year⟩
          else .error "Invalid basis conversion"

/-- `SubstanceRegistry.calculate_combustion_product`. The source converts
the fuel with `fuel_quantity.to("t")`; a `.to` call whose only argument is a
target unit reduces to `_convert_unit` (lemma `to_only_target` below), so
the embedding calls `convertUnit` directly, which also keeps the definition
non-recursive. The stoichiometric constants `44 / 12` and `18 / 2` are the
exact rationals. -/
def calculate_combustion_product (fuel_quantity : Quantity)
    (target_substance : String) : Except String Quantity :=
  match fuel_quantity.substance with
  | none =>
    .error "Fuel substance must be specified for combustion product calculation"
  | some s =>
    match convertUnit fuel_quantity "t" none with
    | .error e => .error e
    | .ok fuel_t =>
      let fuel_mass := fuel_t.value
      match substance_get s with
      | .error e => .error e
      | .ok props =>
        if target_substance = "CO2" then
          let carbon_mass := fuel_mass * props.carbon_content
          let co2_mass := carbon_mass * (44 / 12 : ℚ)
          .ok ⟨co2_mass, "t", some "CO2", none, none⟩
        else if target_substance = "H2O" then
          let hydrogen_mass := fuel_mass * props.hydrogen_content
          let water_mass := hydrogen_mass * (18 / 2 : ℚ)
          .ok ⟨water_mass, "t", some "H2O", none, none⟩
        else if target_substance = "ash" then
          let ash_mass := fuel_mass * props.ash_content
          .ok ⟨ash_mass, "t", some "ash", none, none⟩
        else .error ("Unknown combustion product: " ++ target_substance)

/-- `Quantity._convert_substance`. -/
def convertSubstance (q : Quantity) (target_substance : String) :
    Except String Quantity :=
  match q.substance with
  | none => .error "Source substance must be specified for substance conversion"
  | some s =>
    if target_substance ≠ "CO2" ∧ target_substance ≠ "H2O" ∧
        target_substance ≠ "ash" then
      .error "Substance conversion only supported for combustion products"
    else if s = "wind" ∨ s = "solar" ∨ s = "hydro" ∨ s = "nuclear" then
      .ok ⟨0, "t", some target_substance, none, none⟩
    else
      match calculate_combustion_product q target_substance with
      | .error e => .error e
      | .ok combustion_product =>
        .ok ⟨combustion_product.value, combustion_product.unit,
             some target_substance, none, q.reference_year⟩

/-- `Quantity._convert_reference_year`. -/
def convertReferenceYear (q : Quantity) (target_year : Int) :
    Except String Quantity :=
  match q.reference_year with
  | none => .error "Reference year not specified for inflation adjustment"
  | some ref_year =>
    if target_year = ref_year then
      .ok ⟨q.value, q.unit, q.substance, q.basis, some target_year⟩
    else
      match inflation_detect_currency_from_unit q.unit with
      | none => .error "Cannot detect currency from unit"
      | some currency =>
        match get_cumulative_inflation_factor currency ref_year target_year with
        | .error e => .error e
        | .ok inflation_factor =>
          .ok ⟨q.value * inflation_factor, q.unit, q.substance, q.basis,
               some target_year⟩

/-- `Quantity.to`. The returned `Bool` records whether the non-fatal
currency-plus-inflation advisory
(`ExchangeRateRegistry.warn_currency_inflation_combination`) was issued; it
is `true` exactly on the reordered inflate-first path. -/
def Quantity.to (q : Quantity) (target_unit : Option String)
    (basis : Option String) (substance : Option String)
    (reference_year : Option Int) : Except String (Quantity × Bool) :=
  let is_currency_conversion : Bool :=
    match target_unit with
    | none => false
    | some t =>
      match exchange_detect_currency_from_unit q.unit,
          exchange_detect_currency_from_unit t with
      | some sc, some tc => sc ≠ tc
      | _, _ => false
  let is_year_change : Bool :=
    match reference_year, q.reference_year with
    | some ry, some qry => ry ≠ qry
    | _, _ => false
  let needs_reordering := is_currency_conversion && is_year_change
  let step1 : Except String Quantity :=
    match substance with
    | some s => if q.substance ≠ some s then convertSubstance q s else .ok q
    | none => .ok q
  match step1 with
  | .error e => .error e
  | .ok r1 =>
    let step2 : Except String Quantity :=
      match basis with
      | some b => if r1.basis ≠ some b then convertBasis r1 b else .ok r1
      | none => .ok r1
    match step2 with
    | .error e => .error e
    | .ok r2 =>
      let step34 : Except String Quantity :=
        if needs_reordering then
          match (match reference_year with
                 | some ry => convertReferenceYear r2 ry
                 | none => .ok r2) with
          | .error e => .error e
          | .ok r3 =>
            match target_unit with
            | some t => convertUnit r3 t reference_year
            | none => .ok r3
        else
          match (match target_unit with
                 | some t => convertUnit r2 t none
                 | none => .ok r2) with
          | .error e => .error e
          | .ok r3 =>
            match reference_year with
            | some ry => convertReferenceYear r3 ry
            | none => .ok r3
      match step34 with
      | .error e => .error e
      | .ok result =>
        if target_unit = none ∧ basis = none ∧ substance = none ∧
            reference_year = none then
          .ok (⟨q.value, q.unit, q.substance, q.basis, q.reference_year⟩,
               needs_reordering)
        else .ok (result, needs_reordering)

/-- `Quantity.__add__` (for a `Quantity` right operand). The returned
`Bool` records the differing-substances advisory. -/
def qadd (a b : Quantity) : Except String (Quantity × Bool) :=
  match Quantity.to b (some a.unit) none none none with
  | .error e => .error e
  | .ok (other_converted, _) =>
    let result_value := a.value + other_converted.value
    let substance := if a.substance = b.substance then a.substance else none
    let basis := if a.basis = b.basis then a.basis else none
    let warn : Bool :=
      a.substance.isSome && b.substance.isSome &&
        decide (a.substance ≠ b.substance)
    .ok (⟨result_value, a.unit, substance, basis, a.reference_year⟩, warn)

/-- `Quantity.__sub__` (for a `Quantity` right operand). -/
def qsub (a b : Quantity) : Except String (Quantity × Bool) :=
  match Quantity.to b (some a.unit) none none none with
  | .error e => .error e
  | .ok (other_converted, _) =>
    let result_value := a.value - other_converted.value
    let substance := if a.substance = b.substance then a.substance else none
    let basis := if a.basis = b.basis then a.basis else none
    let warn : Bool :=
      a.substance.isSome && b.substance.isSome &&
        decide (a.substance ≠ b.substance)
    .ok (⟨result_value, a.unit, substance, basis, a.reference_year⟩, warn)

/-- `Quantity._multiply_units`. -/
def multiply_units (unit1 unit2 : String) (dim1 dim2 : String) :
    Except String String :=
  if strContains unit1 "/" ∧ strContains unit1 unit2 then
    .ok (splitFirst unit1).1
  else if strContains unit2 "/" ∧ strContains unit2 unit1 then
    .ok (splitFirst unit2).1
  else
    match get_multiplication_result dim1 dim2 with
    | some rs =>
      let source_unit := if dim1 = rs.2 then unit1 else unit2
      get_corresponding_unit source_unit rs.1
    | none => .ok (unit1 ++ "·" ++ unit2)

/-- The metadata merge of `Quantity.__mul__` / `__truediv__` for
`substance`: kept when equal, adopted from the defined side when exactly
one side has it, else cleared. -/
def mergeSubstance (a b : Option String) : Option String :=
  if a = b then a
  else if a = none then b
  else if b = none then a
  else none

/-- `Quantity.__mul__` (for a `Quantity` right operand), including the
smart compound-unit cancellation step. -/
def qmul (a b : Quantity) : Except String Quantity :=
  match get_dimension a.unit with
  | .error e => .error e
  | .ok dimA =>
    match get_dimension b.unit with
    | .error e => .error e
    | .ok dimB =>
      let converted : Except String (Quantity × Quantity) :=
        if strContains a.unit "/" then
          let denominator := (splitFirst a.unit).2
          match get_dimension denominator with
          | .error e => .error e
          | .ok denominator_dim =>
            if dimB = denominator_dim ∧ b.unit ≠ denominator then
              match Quantity.to b (some denominator) none none none with
              | .error e => .error e
              | .ok (bc, _) => .ok (a, bc)
            else .ok (a, b)
        else if strContains b.unit "/" then
          let denominator := (splitFirst b.unit).2
          match get_dimension denominator with
          | .error e => .error e
          | .ok denominator_dim =>
            if dimA = denominator_dim ∧ a.unit ≠ denominator then
              match Quantity.to a (some denominator) none none none with
              | .error e => .error e
              | .ok (ac, _) => .ok (ac, b)
            else .ok (a, b)
        else .ok (a, b)
      match converted with
      | .error e => .error e
      | .ok (self_converted, other_converted) =>
        match get_dimension self_converted.unit with
        | .error e => .error e
        | .ok dimSC =>
          match get_dimension other_converted.unit with
          | .error e => .error e
          | .ok dimOC =>
            match multiply_units self_converted.unit other_converted.unit
                dimSC dimOC with
            | .error e => .error e
            | .ok result_unit =>
              .ok ⟨self_converted.value * other_converted.value, result_unit,
                   mergeSubstance a.substance b.substance,
                   (if a.basis = b.basis then a.basis else none),
                   (if a.reference_year = b.reference_year then
                     a.reference_year else none)⟩

/-- `Quantity._divide_units`. -/
def divide_units (unit1 unit2 : String) (dim1 dim2 : String) :
    Except String String :=
  match get_division_result dim1 dim2 with
  | some result_dimension => get_corresponding_unit unit1 result_dimension
  | none => if unit1 = unit2 then .ok "" else .ok (unit1 ++ "/" ++ unit2)

/-- `Quantity.__truediv__` (for a `Quantity` right operand). -/
def qdiv (a b : Quantity) : Except String Quantity :=
  match get_dimension a.unit with
  | .error e => .error e
  | .ok dimA =>
    match get_dimension b.unit with
    | .error e => .error e
    | .ok dimB =>
      match divide_units a.unit b.unit dimA dimB with
      | .error e => .error e
      | .ok result_unit =>
        .ok ⟨a.value / b.value, result_unit,
             mergeSubstance a.substance b.substance,
             (if a.basis = b.basis then a.basis else none),
             (if a.reference_year = b.reference_year then
               a.reference_year else none)⟩

/-- The detection procedure exactly as the spec's words describe it: split
the unit string on `/` and exact-match each component against the known
currency codes, falling back to USD on a dollar marker. Stated from the
spec for comparison with the source's substring-based
`detect_currency_from_unit` (claim C8); it is not a translation of source
code. -/
def detect_currency_spec (known : List String) (unit : String) :
    Option String :=
  match (splitAll unit).find? (fun component => known.contains component) with
  | some component => some component
  | none =>
    if strContains unit "$" ∨ strContains (strUpper unit) "DOLLAR" then
      some "USD"
    else none

/-! ## Shared lemmas -/

/-- A `.to` call whose only argument is a target unit is exactly
`_convert_unit` with no exchange-rate year override: the substance, basis
and inflation steps are skipped and no reordering can trigger. This is the
form of the internal `fuel_quantity.to("t")` call inside
`calculate_combustion_product`. -/
theorem to_only_target (q : Quantity) (t : String) :
    Quantity.to q (some t) none none none =
      (convertUnit q t none).map (fun r => (r, false)) := by
  unfold Quantity.to
  cases h : convertUnit q t none <;>
    simp [h, Bool.and_false, Except.map]

/-- Membership in the Python-style integer range. -/
theorem mem_pyRange {a b y : Int} : y ∈ pyRange a b ↔ a ≤ y ∧ y < b := by
  constructor
  · intro h
    obtain ⟨i, hi, he⟩ := List.mem_map.mp h
    have hi2 : i < (b - a).toNat := List.mem_range.mp hi
    omega
  · rintro ⟨h1, h2⟩
    exact List.mem_map.mpr
      ⟨(y - a).toNat, List.mem_range.mpr (by omega), by omega⟩

/-- A successful association-list lookup finds a stored pair. -/
theorem alookup_mem {κ α : Type} [DecidableEq κ] :
    ∀ (l : List (κ × α)) (k : κ) (v : α),
      alookup l k = some v → (k, v) ∈ l
  | [], _, _, h => by simp [alookup] at h
  | (k0, v0) :: rest, k, v, h => by
    by_cases hk : k = k0
    · subst hk
      simp [alookup] at h
      simp [h]
    · simp [alookup, hk] at h
      exact List.mem_cons_of_mem _ (alookup_mem rest k v h)

end EnergyUnits

-- sanity examples kept out of the claim theorems
example : EnergyUnits.get_dimension "MWh" = .ok "ENERGY" := by rfl
example : EnergyUnits.get_dimension "USD/kWh" = .ok "CURRENCY_PER_ENERGY" := by rfl
example : EnergyUnits.get_dimension "MWh/h" = .ok "POWER" := by rfl
example : EnergyUnits.get_dimension "" = .ok "DIMENSIONLESS" := by rfl
example : EnergyUnits.strContains "USD/kWh" "kW" = true := by rfl
example : EnergyUnits.strContains "MW" "kW" = false := by rfl
example : EnergyUnits.strUpper "kUSD/MWh" = "KUSD/MWH" := by rfl
example : EnergyUnits.splitFirst "USD/kWh" = ("USD", "kWh") := by rfl
example : EnergyUnits.splitAll "a/b/c" = ["a", "b", "c"] := by rfl
example : EnergyUnits.pyRange 2015 2018 = [2015, 2016, 2017] := by rfl
example : (EnergyUnits.alookup EnergyUnits.conversion_factors "kg") = some (1/1000 : ℚ) := by simp +decide [EnergyUnits.alookup, EnergyUnits.conversion_factors]
example : EnergyUnits.get_conversion_factor "kg" "t" = .ok ((1/1000 : ℚ) / 1) := by rfl
example : EnergyUnits.get_conversion_factor "MWh" "GJ" = .ok (36/10 : ℚ) := by
  have h : EnergyUnits.get_conversion_factor "MWh" "GJ" = .ok ((1 : ℚ) / ((1 : ℚ) / (36/10))) := by rfl
  rw [h]; norm_num
example : EnergyUnits.get_corresponding_unit "MW" "ENERGY" = .ok "MWh" := by rfl
example : EnergyUnits.get_corresponding_unit "MWh" "POWER" = .ok "MW" := by rfl
example : EnergyUnits.get_corresponding_unit "J" "POWER" = .ok "MW" := by rfl
example : EnergyUnits.substance_lhv "coal" = .ok (278/10 : ℚ) := by rfl
example : EnergyUnits.lhv_over_hhv "coal" = .ok (278/293 : ℚ) := by
  have h : EnergyUnits.lhv_over_hhv "coal" = .ok ((278/10 : ℚ) / (293/10)) := by rfl
  rw [h]; norm_num
example : EnergyUnits.inflation_detect_currency_from_unit "EUR/MWh" = some "EUR" := by rfl
example : EnergyUnits.inflation_detect_currency_from_unit "$/t" = some "USD" := by rfl
example : EnergyUnits.inflation_detect_currency_from_unit "MWh" = none := by rfl
example : EnergyUnits.exchange_detect_currency_from_unit "USD/kW" = some "USD" := by rfl
example : EnergyUnits.exchange_detect_currency_from_unit "kUSD" = some "USD" := by rfl
example : EnergyUnits.exchange_detect_currency_from_unit "t" = none := by rfl
example : EnergyUnits.get_exchange_rate "EUR" (some 2024) = .ok (10800/10000 : ℚ) := by rfl
example : EnergyUnits.get_exchange_rate "EUR" none = .ok (10800/10000 : ℚ) := by rfl
example : EnergyUnits.get_exchange_rate "USD" (some 1900) = .ok 1 := by rfl
example : EnergyUnits.get_cumulative_inflation_factor "USD" 2020 2020 = .ok 1 := by rfl
example : EnergyUnits.get_cumulative_inflation_factor "USD" 2021 2023 =
    .ok (1 * (1 + (8 : ℚ) / 100) * (1 + (412/100 : ℚ) / 100)) := by rfl
example : EnergyUnits.qmul ⟨3, "MW", none, none, none⟩ ⟨2, "h", none, none, none⟩ =
    .ok ⟨3 * 2, "MWh", none, none, none⟩ := by rfl
example : EnergyUnits.qdiv ⟨1000, "MWh", none, none, none⟩ ⟨10, "h", none, none, none⟩ =
    .ok ⟨1000 / 10, "MW", none, none, none⟩ := by rfl
example : EnergyUnits.qmul ⟨3, "USD/kWh", none, none, none⟩ ⟨5, "kW", none, none, none⟩ =
    .ok ⟨3 * 5, "USD", none, none, none⟩ := by rfl
example : EnergyUnits.convertSubstance ⟨123, "MWh", some "wind", none, some 2020⟩ "CO2" =
    .ok ⟨0, "t", some "CO2", none, none⟩ := by rfl
example : EnergyUnits.calculate_combustion_product ⟨1000, "kg", some "coal", none, none⟩ "CO2" =
    .ok ⟨1000 * ((1/1000 : ℚ) / 1) * (75/100) * (44/12), "t", some "CO2", none, none⟩ := by rfl
example : (EnergyUnits.Quantity.to ⟨100, "MWh", none, none, none⟩ (some "GJ") none none none) =
    .ok (⟨100 * ((1 : ℚ) / ((1 : ℚ)/(36/10))), "GJ", none, none, none⟩, false) := by rfl

namespace EnergyUnits

/-- C2: for all numeric values x and t, multiplying `Quantity(x, "MW")` by
`Quantity(t, "h")` gives a quantity with unit `"MWh"` and value `x*t`: the
POWER times TIME dimension-algebra rule produces ENERGY sourced from the
POWER operand, and the unit corresponding to `"MW"` in ENERGY is `"MWh"`. -/
theorem C2_power_times_time (x t : ℚ) :
    qmul ⟨x, "MW", none, none, none⟩ ⟨t, "h", none, none, none⟩ =
      .ok ⟨x * t, "MWh", none, none, none⟩ := by
  rfl

/-- C3: dividing an ENERGY quantity by a TIME quantity yields the POWER unit
corresponding to the numerator's unit, with value the quotient of the
values; in particular `Quantity(1000, "MWh") / Quantity(10, "h")` is
`Quantity(100, "MW")` (see the witness). The nonzero-divisor hypothesis
keeps the rational model aligned with the source, where a zero divisor is a
float division error, not a value. -/
theorem C3_energy_div_time (v1 v2 : ℚ) (u1 u2 : String)
    (h1 : get_dimension u1 = .ok "ENERGY")
    (h2 : get_dimension u2 = .ok "TIME")
    (hv : v2 ≠ 0) :
    ∃ power_unit, get_corresponding_unit u1 "POWER" = .ok power_unit ∧
      qdiv ⟨v1, u1, none, none, none⟩ ⟨v2, u2, none, none, none⟩ =
        .ok ⟨v1 / v2, power_unit, none, none, none⟩ := by
  have hdiv : get_division_result "ENERGY" "TIME" = some "POWER" := by rfl
  have hsp : alookup standard_unit_pairs ("ENERGY", "POWER") =
      some ("MWh", "MW") := by rfl
  have hcu : ∃ pu, get_corresponding_unit u1 "POWER" = .ok pu := by
    unfold get_corresponding_unit
    cases hct : alookup corresponding_units u1 with
    | none => simp [h1, hsp]
    | some corr =>
      cases hdc : get_dimension corr with
      | error e => simp [hdc, h1, hsp]
      | ok d =>
        by_cases hdp : d = "POWER"
        · subst hdp
          simp [hdc]
        · simp [hdc, hdp, h1, hsp]
  obtain ⟨pu, hpu⟩ := hcu
  refine ⟨pu, hpu, ?_⟩
  unfold qdiv divide_units
  simp [h1, h2, hdiv, hpu, mergeSubstance]

/-- Witness for C3 at the claim's concrete instance. -/
theorem C3_witness :
    qdiv ⟨1000, "MWh", none, none, none⟩ ⟨10, "h", none, none, none⟩ =
      .ok ⟨100, "MW", none, none, none⟩ := by
  obtain ⟨pu, hpu, hq⟩ :=
    C3_energy_div_time 1000 10 "MWh" "h" (by rfl) (by rfl) (by norm_num)
  have hpu2 : get_corresponding_unit "MWh" "POWER" = .ok "MW" := by rfl
  rw [hpu2] at hpu
  obtain rfl : pu = "MW" := by
    cases hpu
    rfl
  rw [hq]
  norm_num

/-- C6: for every substance in the non-combustible set (wind, solar, hydro,
nuclear), conversion to each combustion product CO2, H2O and ash yields the
value exactly 0, decided before any mass/energy conversion is attempted:
the unit `u` is arbitrary — it may even be unknown to the registry, and the
substance has no heating value, so the combustion path could not succeed —
yet the result is `0 t` of the product for every input value. -/
theorem C6_renewables_zero (v : ℚ) (u : String) (basis : Option String)
    (ry : Option Int) (s p : String)
    (hs : s = "wind" ∨ s = "solar" ∨ s = "hydro" ∨ s = "nuclear")
    (hp : p = "CO2" ∨ p = "H2O" ∨ p = "ash") :
    convertSubstance ⟨v, u, some s, basis, ry⟩ p =
      .ok ⟨0, "t", some p, none, none⟩ := by
  rcases hp with rfl | rfl | rfl <;>
    rcases hs with rfl | rfl | rfl | rfl <;> rfl

/-- Witness for C6: wind with an energy unit and a huge value still gives
exactly zero CO2. -/
theorem C6_witness :
    convertSubstance ⟨1000000000, "MWh", some "wind", none, some 2020⟩ "CO2" =
      .ok ⟨0, "t", some "CO2", none, none⟩ :=
  C6_renewables_zero 1000000000 "MWh" none (some 2020) "wind" "CO2"
    (Or.inl rfl) (Or.inl rfl)

/-- C10: in Quantity multiplication, compound-unit cancellation is decided
by substring containment: when the left operand's unit is compound, the
right operand's unit string occurs anywhere inside it, and the right
operand's dimension differs from the compound denominator's dimension (so
no pre-conversion fires), the result unit is the compound's first
`/`-component and the values are multiplied unchanged. -/
theorem C10_substring_cancellation (q1 q2 : Quantity) (d1 dd d2 : String)
    (hc : strContains q1.unit "/" = true)
    (hsub : strContains q1.unit q2.unit = true)
    (hd1 : get_dimension q1.unit = .ok d1)
    (hdd : get_dimension (splitFirst q1.unit).2 = .ok dd)
    (hd2 : get_dimension q2.unit = .ok d2)
    (hne : d2 ≠ dd) :
    qmul q1 q2 = .ok ⟨q1.value * q2.value, (splitFirst q1.unit).1,
      mergeSubstance q1.substance q2.substance,
      (if q1.basis = q2.basis then q1.basis else none),
      (if q1.reference_year = q2.reference_year then q1.reference_year
        else none)⟩ := by
  unfold qmul multiply_units
  simp [hd1, hd2, hc, hdd, hne, hsub]

/-- Witness for C10 at the claim's concrete instance: `"USD/kWh" * "kW"`
matches `"kW"` inside `"kWh"` only as a substring, yet yields unit `"USD"`
and the plain product of the values. -/
theorem C10_witness :
    qmul ⟨3, "USD/kWh", none, none, none⟩ ⟨5, "kW", none, none, none⟩ =
      .ok ⟨3 * 5, "USD", none, none, none⟩ := by
  have h := C10_substring_cancellation ⟨3, "USD/kWh", none, none, none⟩
    ⟨5, "kW", none, none, none⟩ "CURRENCY_PER_ENERGY" "ENERGY" "POWER"
    (by rfl) (by rfl) (by rfl) (by rfl) (by rfl) (by decide)
  exact h

/-- C9: for every addition or subtraction of two Quantities, the result
keeps the left operand's reference year even when the operands' reference
years differ; substance and basis are instead cleared on disagreement, and
the only advisory raised is the differing-substances one — it never depends
on the reference years. -/
theorem C9_addsub_keeps_left_reference_year (a b : Quantity) :
    (∀ res w, qadd a b = .ok (res, w) →
      res.reference_year = a.reference_year ∧
      res.substance = (if a.substance = b.substance then a.substance
        else none) ∧
      res.basis = (if a.basis = b.basis then a.basis else none) ∧
      (w = true ↔ a.substance.isSome = true ∧ b.substance.isSome = true ∧
        a.substance ≠ b.substance)) ∧
    (∀ res w, qsub a b = .ok (res, w) →
      res.reference_year = a.reference_year ∧
      res.substance = (if a.substance = b.substance then a.substance
        else none) ∧
      res.basis = (if a.basis = b.basis then a.basis else none) ∧
      (w = true ↔ a.substance.isSome = true ∧ b.substance.isSome = true ∧
        a.substance ≠ b.substance)) := by
  constructor <;>
  · intro res w h
    first
      | (unfold qadd at h)
      | (unfold qsub at h)
    cases hto : Quantity.to b (some a.unit) none none none with
    | error e =>
      rw [hto] at h
      cases h
    | ok p =>
      rw [hto] at h
      cases h
      refine ⟨rfl, rfl, rfl, ?_⟩
      simp [Bool.and_eq_true, and_assoc]

/-- Witness for C9: adding 1 MWh (2020) and 2 MWh (2021) succeeds, keeps
reference year 2020, and raises no advisory. -/
theorem C9_witness :
    ∃ res w,
      qadd ⟨1, "MWh", none, none, some 2020⟩ ⟨2, "MWh", none, none, some 2021⟩ =
        .ok (res, w) ∧
      res.reference_year = some 2020 ∧ w = false := by
  have hq : qadd ⟨1, "MWh", none, none, some 2020⟩
      ⟨2, "MWh", none, none, some 2021⟩ =
      .ok (⟨1 + 2 * (1 / 1), "MWh", none, none, some 2020⟩, false) := by rfl
  obtain ⟨h1, _, _, h4⟩ :=
    (C9_addsub_keeps_left_reference_year ⟨1, "MWh", none, none, some 2020⟩
      ⟨2, "MWh", none, none, some 2021⟩).1 _ _ hq
  exact ⟨_, _, hq, h1, by simp at h4 ⊢⟩

end EnergyUnits

namespace EnergyUnits

/-- C5: for every fuel quantity in a mass unit whose substance has carbon
content fraction c, the combustion-product calculation for CO2 returns a
quantity in tonnes whose value is (mass converted to tonnes) times c times
the exact stoichiometric constant 44/12. -/
theorem C5_co2_stoichiometry (v : ℚ) (u : String) (basis : Option String)
    (ry : Option Int) (s : String) (props : SubstanceProps) (fac : ℚ)
    (hs : alookup substances s = some props)
    (hdu : get_dimension u = .ok "MASS")
    (hfac : get_conversion_factor u "t" = .ok fac) :
    calculate_combustion_product ⟨v, u, some s, basis, ry⟩ "CO2" =
      .ok ⟨v * fac * props.carbon_content * (44 / 12), "t", some "CO2",
        none, none⟩ := by
  have hdt : get_dimension "t" = .ok "MASS" := by rfl
  have hdet_t : exchange_detect_currency_from_unit "t" = none := by rfl
  unfold calculate_combustion_product convertUnit substance_get
  cases hdet : exchange_detect_currency_from_unit u <;>
    simp [hdu, hdt, hdet, hdet_t, hfac, hs]

/-- Witness for C5: 1000 kg of coal (carbon content 0.75) yields
1000 × (1/1000) × 0.75 × 44/12 tonnes of CO2. -/
theorem C5_witness :
    calculate_combustion_product ⟨1000, "kg", some "coal", none, none⟩ "CO2" =
      .ok ⟨1000 * ((1/1000 : ℚ) / 1) * (75/100) * (44 / 12), "t", some "CO2",
        none, none⟩ := by
  exact C5_co2_stoichiometry 1000 "kg" none none "coal"
    ⟨some (293/10), some (278/10), some 833, 340, 75/100, 5/100, 10/100⟩
    ((1/1000 : ℚ) / 1) (by rfl) (by rfl) (by rfl)

/-- C8 counterexample: the source's currency detection matches currency
codes as substrings of the upper-cased unit, not as exact `/`-separated
components: `"kUSD"` has no component equal to a known code, yet both
registries detect USD in it, while the spec's exact-component procedure
detects nothing. -/
theorem C8_counterexample :
    exchange_detect_currency_from_unit "kUSD" = some "USD" ∧
    inflation_detect_currency_from_unit "kUSD" = some "USD" ∧
    detect_currency_spec exchange_supported_currencies "kUSD" = none ∧
    detect_currency_spec inflation_supported_currencies "kUSD" = none :=
  ⟨rfl, rfl, rfl, rfl⟩

/-- C8 (amended): currency detection scans the known codes in registry
order and returns the first whose code occurs as a substring of the
upper-cased unit string, with the `$`/`dollar` fallback to USD; it returns
`none` exactly when no known code occurs as a substring and no dollar
marker is present. Both conjunct pairs state this for the exchange-rate and
the inflation registry respectively: detection succeeds iff a code occurs
as a substring or the fallback fires, and any detected code either occurs
as a substring of the upper-cased unit or is the USD fallback. -/
theorem C8_substring_detection (u : String) :
    ((exchange_detect_currency_from_unit u).isSome = true ↔
      ((∃ c ∈ exchange_supported_currencies,
          strContains (strUpper u) c = true) ∨
        strContains u "$" = true ∨ strContains (strUpper u) "DOLLAR" = true)) ∧
    (∀ c, exchange_detect_currency_from_unit u = some c →
      (c ∈ exchange_supported_currencies ∧
          strContains (strUpper u) c = true) ∨
        (c = "USD" ∧ (strContains u "$" = true ∨
          strContains (strUpper u) "DOLLAR" = true))) ∧
    ((inflation_detect_currency_from_unit u).isSome = true ↔
      ((∃ c ∈ inflation_supported_currencies,
          strContains (strUpper u) c = true) ∨
        strContains u "$" = true ∨ strContains (strUpper u) "DOLLAR" = true)) ∧
    (∀ c, inflation_detect_currency_from_unit u = some c →
      (c ∈ inflation_supported_currencies ∧
          strContains (strUpper u) c = true) ∨
        (c = "USD" ∧ (strContains u "$" = true ∨
          strContains (strUpper u) "DOLLAR" = true))) := by
  have main : ∀ (known : List String),
      ((match known.find? (fun c => strContains (strUpper u) c) with
        | some c => some c
        | none =>
          if strContains u "$" ∨ strContains (strUpper u) "DOLLAR" then
            some "USD"
          else none : Option String).isSome = true ↔
        ((∃ c ∈ known, strContains (strUpper u) c = true) ∨
          strContains u "$" = true ∨
          strContains (strUpper u) "DOLLAR" = true)) ∧
      (∀ c, (match known.find? (fun c => strContains (strUpper u) c) with
        | some c => some c
        | none =>
          if strContains u "$" ∨ strContains (strUpper u) "DOLLAR" then
            some "USD"
          else none : Option String) = some c →
        (c ∈ known ∧ strContains (strUpper u) c = true) ∨
          (c = "USD" ∧ (strContains u "$" = true ∨
            strContains (strUpper u) "DOLLAR" = true))) := by
    intro known
    cases hf : known.find? (fun c => strContains (strUpper u) c) with
    | some c0 =>
      constructor
      · simp only [hf, Option.isSome_some, true_iff]
        exact Or.inl ⟨c0, List.mem_of_find?_eq_some hf,
          List.find?_some hf⟩
      · intro c hc
        simp only [hf, Option.some.injEq] at hc
        subst hc
        exact Or.inl ⟨List.mem_of_find?_eq_some hf,
          List.find?_some hf⟩
    | none =>
      have hnone := List.find?_eq_none.mp hf
      constructor
      · by_cases hd : strContains u "$" = true ∨
            strContains (strUpper u) "DOLLAR" = true
        · simp only [hf]
          rw [if_pos (by simpa using hd)]
          simp only [Option.isSome_some, true_iff]
          exact Or.inr hd
        · simp only [hf]
          rw [if_neg (by simpa using hd)]
          simp only [Option.isSome_none, Bool.false_eq_true, false_iff]
          push_neg at hd
          rintro (⟨c, hc, hcc⟩ | h | h)
          · exact absurd hcc (by simpa using hnone c hc)
          · exact absurd h hd.1
          · exact absurd h hd.2
      · intro c hc
        simp only [hf] at hc
        by_cases hd : strContains u "$" = true ∨
            strContains (strUpper u) "DOLLAR" = true
        · rw [if_pos (by simpa using hd)] at hc
          simp only [Option.some.injEq] at hc
          exact Or.inr ⟨hc.symm, hd⟩
        · rw [if_neg (by simpa using hd)] at hc
          cases hc
  obtain ⟨hex1, hex2⟩ := main exchange_supported_currencies
  obtain ⟨hin1, hin2⟩ := main inflation_supported_currencies
  exact ⟨hex1, hex2, hin1, hin2⟩

end EnergyUnits

namespace EnergyUnits

/-- The inflation table has exactly the USD and EUR series. -/
theorem inflation_data_cases (c : String) (cdata : List (Int × ℚ))
    (hc : alookup inflation_data c = some cdata) :
    cdata = usd_inflation_rates ∨ cdata = eur_inflation_rates := by
  simp only [inflation_data, alookup] at hc
  split_ifs at hc <;> simp_all

/-- Every rate stored in the shipped inflation series is nonnegative. -/
theorem inflation_rate_nonneg (cdata : List (Int × ℚ))
    (hcd : cdata = usd_inflation_rates ∨ cdata = eur_inflation_rates)
    (y : Int) (r : ℚ) (hr : alookup cdata y = some r) : 0 ≤ r := by
  have hmem := alookup_mem cdata y r hr
  rcases hcd with rfl | rfl <;>
    · simp only [usd_inflation_rates, eur_inflation_rates] at hmem
      fin_cases hmem <;> norm_num

/-- Running the inflating loop and the deflating loop over the same year
list from unit accumulators produces multiplicative inverses: the product
of the two results is the product of the accumulators. -/
theorem loops_inverse (cdata : List (Int × ℚ)) :
    ∀ (ys : List Int) (f g : ℚ),
      (∀ y ∈ ys, ∃ r, alookup cdata y = some r ∧ (1 + r / 100) ≠ 0) →
      ∃ p q, inflateLoop cdata f ys = .ok p ∧
        deflateLoop cdata g ys = .ok q ∧ p * q = f * g := by
  intro ys
  induction ys with
  | nil => exact fun f g _ => ⟨f, g, rfl, rfl, rfl⟩
  | cons y ys ih =>
    intro f g hall
    obtain ⟨r, hr, hnz⟩ := hall y (List.mem_cons_self _ _)
    obtain ⟨p, q, hp, hq, hpq⟩ := ih (f * (1 + r / 100)) (g / (1 + r / 100))
      (fun z hz => hall z (List.mem_cons_of_mem _ hz))
    refine ⟨p, q, ?_, ?_, ?_⟩
    · simpa [inflateLoop, hr] using hp
    · simpa [deflateLoop, hr] using hq
    · calc p * q = f * (1 + r / 100) * (g / (1 + r / 100)) := hpq
        _ = f * g * ((1 + r / 100) / (1 + r / 100)) := by ring
        _ = f * g := by rw [div_self hnz, mul_one]

/-- C4: for every supported currency and all years a, b such that every
year strictly between min(a,b) and max(a,b), upper end included, has a
recorded rate, the forward and backward cumulative inflation factors are
exact multiplicative inverses; for a = b the factor is 1. -/
theorem C4_inflation_factor_inverse (c : String) (a b : Int)
    (cdata : List (Int × ℚ))
    (hc : alookup inflation_data c = some cdata)
    (hdata : ∀ y : Int, min a b < y → y ≤ max a b →
      (alookup cdata y).isSome = true) :
    ∃ f g, get_cumulative_inflation_factor c a b = .ok f ∧
      get_cumulative_inflation_factor c b a = .ok g ∧
      f * g = 1 ∧ (a = b → f = 1) := by
  have hall : ∀ y ∈ pyRange (min a b + 1) (max a b + 1),
      ∃ r, alookup cdata y = some r ∧ (1 + r / 100) ≠ 0 := by
    intro y hy
    rw [mem_pyRange] at hy
    obtain ⟨r, hr⟩ :=
      Option.isSome_iff_exists.mp (hdata y (by omega) (by omega))
    refine ⟨r, hr, ?_⟩
    have h0 : (0 : ℚ) ≤ r :=
      inflation_rate_nonneg cdata (inflation_data_cases c cdata hc) y r hr
    have h100 : (0 : ℚ) ≤ r / 100 := by positivity
    exact ne_of_gt (by linarith)
  unfold get_cumulative_inflation_factor
  rw [hc]
  dsimp only
  rcases lt_trichotomy a b with hab | rfl | hab
  · obtain ⟨p, q, hp, hq, hpq⟩ :=
      loops_inverse cdata (pyRange (a + 1) (b + 1)) 1 1 (by
        intro y hy
        apply hall
        rw [mem_pyRange] at hy ⊢
        omega)
    refine ⟨p, q, ?_, ?_, by rw [hpq]; norm_num,
      fun h => absurd h (by omega)⟩
    · rw [if_neg (show ¬(a = b) by omega), if_neg (show ¬(a > b) by omega)]
      exact hp
    · rw [if_neg (show ¬(b = a) by omega), if_pos (show b > a by omega)]
      exact hq
  · refine ⟨1, 1, by simp, by simp, by norm_num, fun _ => rfl⟩
  · obtain ⟨p, q, hp, hq, hpq⟩ :=
      loops_inverse cdata (pyRange (b + 1) (a + 1)) 1 1 (by
        intro y hy
        apply hall
        rw [mem_pyRange] at hy ⊢
        omega)
    refine ⟨q, p, ?_, ?_, by rw [mul_comm, hpq]; norm_num,
      fun h => absurd h (by omega)⟩
    · rw [if_neg (show ¬(a = b) by omega), if_pos (show a > b by omega)]
      exact hq
    · rw [if_neg (show ¬(b = a) by omega), if_neg (show ¬(b > a) by omega)]
      exact hp

/-- Witness for C4: the USD factors between 2020 and 2023 in both
directions multiply to exactly 1. -/
theorem C4_witness :
    ∃ f g, get_cumulative_inflation_factor "USD" 2020 2023 = .ok f ∧
      get_cumulative_inflation_factor "USD" 2023 2020 = .ok g ∧
      f * g = 1 := by
  obtain ⟨f, g, h1, h2, h3, _⟩ :=
    C4_inflation_factor_inverse "USD" 2020 2023 usd_inflation_rates rfl (by
      intro y hy1 hy2
      norm_num at hy1 hy2
      interval_cases y <;> rfl)
  exact ⟨f, g, h1, h2, h3⟩

end EnergyUnits

namespace EnergyUnits

/-- C7 counterexample: the claim's example demands that 1 t of a substance
with LHV h MJ/kg converts to exactly 1000·h MJ. For coal (LHV 27.8 MJ/kg)
the engine returns 27802.224 MJ, not 27800 MJ, because `_mass_to_energy`
converts MJ/kg to MWh/t with the rounded constant 0.2778 instead of the
exact 1000/3600. -/
theorem C7_counterexample :
    mass_to_energy 1 "t" "MJ" (some "coal") none = .ok (3475278/125) ∧
      (3475278/125 : ℚ) ≠ 1000 * (278/10) := by
  constructor
  · have h : mass_to_energy 1 "t" "MJ" (some "coal") none =
        .ok (1 * ((1 : ℚ) / (1/1000)) / 1000 * ((278/10) * (2778/10000)) *
          ((1 : ℚ) / ((1/1000 : ℚ) / (36/10)))) := by rfl
    rw [h]
    norm_num
  · norm_num

/-- C7 (amended): converting a mass quantity with a substance to an energy
unit through `Quantity.to` yields
energy = (mass in t) × heating_value × 0.2778 (in MWh), expressed in the
target unit — the engine uses the rounded factor 0.2778 MWh·kg/(MJ·t)
rather than the exact 1000/3600, so 1 t at LHV h MJ/kg gives 1000.08·h MJ,
about 0.008 percent above mass × heating_value. The basis defaults to LHV
when the quantity carries none, and HHV is used when the quantity carries
basis "HHV". -/
theorem C7_mass_to_energy_rounded (v : ℚ) (u t s : String) (ry : Option Int)
    (h hh f1 f2 : ℚ)
    (hdu : get_dimension u = .ok "MASS")
    (hdt : get_dimension t = .ok "ENERGY")
    (hlhv : substance_lhv s = .ok h)
    (hhhv : substance_hhv s = .ok hh)
    (hf1 : get_conversion_factor u "kg" = .ok f1)
    (hf2 : get_conversion_factor "MWh" t = .ok f2) :
    Quantity.to ⟨v, u, some s, none, ry⟩ (some t) none none none =
      .ok (⟨v * f1 / 1000 * (h * (2778/10000)) * f2, t, some s, none, ry⟩,
        false) ∧
    Quantity.to ⟨v, u, some s, some "HHV", ry⟩ (some t) none none none =
      .ok (⟨v * f1 / 1000 * (hh * (2778/10000)) * f2, t, some s, some "HHV",
        ry⟩, false) := by
  have hcompat : are_dimensions_compatible "MASS" "ENERGY" = true := by rfl
  constructor <;>
  · rw [to_only_target]
    unfold convertUnit convert_between_dimensions mass_to_energy
    simp +decide [hdu, hdt, hcompat, hf1, hf2, hlhv, hhhv, basisIsHHV,
      Except.map]

/-- Witness for C7 (amended) at the counterexample's instance. -/
theorem C7_witness :
    Quantity.to ⟨1, "t", some "coal", none, none⟩ (some "MJ") none none none =
      .ok (⟨1 * ((1 : ℚ) / (1/1000)) / 1000 * ((278/10) * (2778/10000)) *
        ((1 : ℚ) / ((1/1000 : ℚ) / (36/10))), "MJ", some "coal", none, none⟩,
        false) := by
  exact (C7_mass_to_energy_rounded 1 "t" "MJ" "coal" none (278/10) (293/10)
    ((1 : ℚ) / (1/1000)) ((1 : ℚ) / ((1/1000 : ℚ) / (36/10)))
    (by rfl) (by rfl) (by rfl) (by rfl) (by rfl) (by rfl)).1

end EnergyUnits

namespace EnergyUnits

/-- `year_for_exchange_rate or self.reference_year` when both hold the same
year is that year, whatever its value. -/
theorem pyOrYear_self (x : Int) : pyOrYear (some x) (some x) = some x := by
  simp [pyOrYear]

/-- C1: for a quantity whose unit carries a supported currency and whose
reference year is set, converting to a different currency together with a
target reference year Y equals the two-step inflate-to-Y-then-convert, the
currency conversion uses year Y's exchange rate in both paths, and the
non-fatal advisory is issued exactly when the reference year actually
changes alongside the currency (the currency change being given). -/
theorem C1_inflate_then_convert
    (v : ℚ) (u t : String) (subst basis : Option String) (y0 Y : Int)
    (d c1 c2 c3 : String) (f r1 r2 : ℚ)
    (hdu : get_dimension u = .ok d)
    (hdt : get_dimension t = .ok d)
    (hc1 : exchange_detect_currency_from_unit u = some c1)
    (hc2 : exchange_detect_currency_from_unit t = some c2)
    (hcc : c1 ≠ c2)
    (hc3 : inflation_detect_currency_from_unit u = some c3)
    (hf : get_cumulative_inflation_factor c3 y0 Y = .ok f)
    (hr1 : get_exchange_rate c1 (some Y) = .ok r1)
    (hr2 : get_exchange_rate c2 (some Y) = .ok r2) :
    ∃ qc q1 q2 w,
      Quantity.to ⟨v, u, subst, basis, some y0⟩ (some t) none none (some Y) =
        .ok (qc, w) ∧
      Quantity.to ⟨v, u, subst, basis, some y0⟩ none none none (some Y) =
        .ok (q1, false) ∧
      Quantity.to q1 (some t) none none none = .ok (q2, false) ∧
      qc.value = q2.value ∧ qc.unit = t ∧ q2.unit = t ∧
      qc.reference_year = some Y ∧ q2.reference_year = some Y ∧
      (w = true ↔ Y ≠ y0) := by
  have hexch : exchange_get_conversion_factor c1 c2 (some Y) =
      .ok (1 * r1 / r2) := by
    unfold exchange_get_conversion_factor convert_currency
    rw [if_neg hcc, hr1, hr2]
  -- converting the unit at any value and metadata, with the explicit
  -- exchange-rate year Y
  have hcu1 : ∀ (val : ℚ) (sub bas : Option String),
      convertUnit ⟨val, u, sub, bas, some Y⟩ t (some Y) =
        .ok ⟨val * (1 * r1 / r2), t, sub, bas, some Y⟩ := by
    intro val sub bas
    unfold convertUnit
    rw [hdu, hdt]
    simp [hc1, hc2, hcc, pyOrYear_self, hexch]
  -- converting the unit with no year override, the reference year being Y
  have hcu0 : ∀ (val : ℚ) (sub bas : Option String),
      convertUnit ⟨val, u, sub, bas, some Y⟩ t none =
        .ok ⟨val * (1 * r1 / r2), t, sub, bas, some Y⟩ := by
    intro val sub bas
    unfold convertUnit
    rw [hdu, hdt]
    simp [hc1, hc2, hcc, hexch, pyOrYear]
  -- a no-op reference-year conversion
  have hry_same : ∀ (val : ℚ) (un : String) (sub bas : Option String),
      convertReferenceYear ⟨val, un, sub, bas, some Y⟩ Y =
        .ok ⟨val, un, sub, bas, some Y⟩ := by
    intro val un sub bas
    unfold convertReferenceYear
    simp
  by_cases hY : Y = y0
  · subst hY
    refine ⟨⟨v * (1 * r1 / r2), t, subst, basis, some Y⟩,
      ⟨v, u, subst, basis, some Y⟩,
      ⟨v * (1 * r1 / r2), t, subst, basis, some Y⟩, false,
      ?_, ?_, ?_, rfl, rfl, rfl, rfl, rfl, by simp⟩
    · unfold Quantity.to
      simp [hc1, hc2, hcu0 v subst basis, hry_same]
    · unfold Quantity.to
      simp [hry_same]
    · rw [to_only_target]
      rw [hcu0 v subst basis]
      rfl
  · -- the reference year really changes: inflate first, then convert
    have hry_u : convertReferenceYear ⟨v, u, subst, basis, some y0⟩ Y =
        .ok ⟨v * f, u, subst, basis, some Y⟩ := by
      unfold convertReferenceYear
      simp [hY, hc3, hf]
    refine ⟨⟨v * f * (1 * r1 / r2), t, subst, basis, some Y⟩,
      ⟨v * f, u, subst, basis, some Y⟩,
      ⟨v * f * (1 * r1 / r2), t, subst, basis, some Y⟩, true,
      ?_, ?_, ?_, rfl, rfl, rfl, rfl, rfl, by simp [hY]⟩
    · unfold Quantity.to
      simp [hc1, hc2, hcc, hY, hry_u, hcu1 (v * f) subst basis]
    · unfold Quantity.to
      simp [hry_u]
    · rw [to_only_target]
      rw [hcu0 (v * f) subst basis]
      rfl

end EnergyUnits

namespace EnergyUnits

/-- Witness for C1: 50 EUR/MWh with reference year 2015, converted to
USD/MWh at reference year 2024. -/
theorem C1_witness :
    ∃ qc q1 q2 w,
      Quantity.to ⟨50, "EUR/MWh", none, none, some 2015⟩ (some "USD/MWh")
        none none (some 2024) = .ok (qc, w) ∧
      Quantity.to ⟨50, "EUR/MWh", none, none, some 2015⟩ none none none
        (some 2024) = .ok (q1, false) ∧
      Quantity.to q1 (some "USD/MWh") none none none = .ok (q2, false) ∧
      qc.value = q2.value ∧ qc.unit = "USD/MWh" ∧ q2.unit = "USD/MWh" ∧
      qc.reference_year = some 2024 ∧ q2.reference_year = some 2024 ∧
      (w = true ↔ (2024 : Int) ≠ 2015) := by
  exact C1_inflate_then_convert 50 "EUR/MWh" "USD/MWh" none none 2015 2024
    "CURRENCY_PER_ENERGY" "EUR" "USD" "EUR" _ _ _
    (by rfl) (by rfl) (by rfl) (by rfl) (by decide) (by rfl) (by rfl)
    (by rfl) (by rfl)

end EnergyUnits
